import Mathlib

/-!
Verification of the ESI cosimulation test runner (esi-cosim-runner.py).

The script drives one cosimulation test: it compiles the simulation with
circt-rtl-sim.py, launches the simulation as a subprocess in its own process
group, polls for a config file to discover the RPC port, polls the TCP port
until it accepts connections, runs the test phase (generated inline script,
external executable, or a server-only interactive prompt), and finally tears
the simulation down in a guaranteed cleanup block before aggregating the four
captured log files into a pass/fail verdict.

The embedding below models the observable behaviour of each piece as pure
Lean functions over an oracle environment that supplies the results of all
external interactions (filesystem checks, file contents, subprocess exit
codes, TCP connect results).  Side effects are recorded as an event trace.
-/

namespace Cosim

/-- Observable events performed by the runner (file opens/closes, subprocess
launches, sleeps, socket operations, signals, prints). -/
inductive REv
  | openW (f : String)
  | closeF (f : String)
  | removeCfg
  | popen
  | sleepMs (n : Nat)
  | sockCreate
  | sockConnect
  | sockClose
  | writeScriptF
  | prompt
  | runTest
  | killpg
  | waitSim
  | killSim
  | printLogs
  | printInfo
  | subprocRun
  | printCompileFail
  | printCompileOut (s : String)
  deriving DecidableEq

/-! ### Character-level string scanning helpers

`re.match` style matching is modelled directly on the character list of the
line being examined. -/

/-- Strip an expected literal prefix from a character list; `none` when the
list does not start with that prefix.  Models the literal part of an anchored
`re.match`. -/
def dropPrefixChars : List Char → List Char → Option (List Char)
  | [], cs => some cs
  | _ :: _, [] => none
  | p :: ps, c :: cs => if c = p then dropPrefixChars ps cs else none

/-- The leading run of decimal digits, models the greedy regex group `(\d+)`
anchored at the current position. -/
def leadDigits : List Char → List Char
  | [] => []
  | c :: cs => if c.isDigit then c :: leadDigits cs else []

/-- Numeric value of a digit run (what Python's `int()` computes on it). -/
def digitsVal (ds : List Char) : Nat :=
  ds.foldl (fun a c => a * 10 + (c.toNat - 48)) 0

/-- The characters Python's `\s` class and `str.strip()` treat as whitespace. -/
def isPySpace (c : Char) : Bool :=
  c = ' ' || c = '\t' || c = '\n' || c = '\r' || c = '\x0b' || c = '\x0c'

/-- Drop leading characters satisfying `p`. -/
def dropWhileChars (p : Char → Bool) : List Char → List Char
  | [] => []
  | c :: cs => if p c then dropWhileChars p cs else c :: cs

/-- Strip whitespace from both ends, models Python's `str.strip()`. -/
def trimChars (cs : List Char) : List Char :=
  ((dropWhileChars isPySpace ((dropWhileChars isPySpace cs.reverse)).reverse))

/-- `re.match("port: (\d+)", line)` followed by `int(group(1))`: the line must
start with the literal `port: ` and at least one digit must follow; the value
is the leading digit run. -/
def matchPortLine (line : String) : Option Nat :=
  match dropPrefixChars ("port: ".data) line.data with
  | none => none
  | some rest =>
    match leadDigits rest with
    | [] => none
    | ds => some (digitsVal ds)

/-- `re.match(r"^(//|#)\s*PY:(.*)$", line)` followed by `group(2).strip()`:
a `//` or `#` comment marker at the start of the line, optional whitespace,
the literal `PY:`, and the stripped remainder of the line. -/
def matchPYLine (line : String) : Option String :=
  let cs := line.data
  let afterMark : Option (List Char) :=
    match dropPrefixChars ("//".data) cs with
    | some r => some r
    | none => dropPrefixChars ("#".data) cs
  match afterMark with
  | none => none
  | some rest =>
    match dropPrefixChars ("PY:".data) (dropWhileChars isPySpace rest) with
    | none => none
    | some tail => some (String.mk (trimChars tail))

/-- The ordered list of directive lines collected by the `__init__` scan
(lines 62-69): each line of the source file matching the `PY:` comment
pattern contributes its stripped payload, in file order. -/
def extractRuns (fileLines : List String) : List String :=
  fileLines.filterMap matchPYLine

/-! ### Port discovery (run(), lines 178-192)

First a bounded polling loop waits for the config file while the simulation
process is still alive (`while (not os.path.exists(portFileName)) and
simProc.poll() is None`), sleeping 100 ms per iteration, incrementing a
counter and raising once the counter exceeds 200.  Then an unbounded loop
re-opens and re-scans the file until a `port: <digits>` line has been seen;
the port variable keeps the value of the last matching line of a scan. -/

/-- Result of the config-file wait loop: either the timeout exception was
raised, or the loop condition became false after `i` checks. -/
inductive CfgWaitRes
  | timedOut
  | left (i : Nat)
  deriving DecidableEq

/-- The config-file wait loop.  `cfgExists j` and `simAlive j` are the oracle
results of the `os.path.exists` / `simProc.poll() is None` checks at the
`j`-th evaluation of the loop condition.  The fuel argument counts the
remaining retry budget (201 body executions in total before the raise, since
the counter must exceed 200); every body execution sleeps 100 ms first, the
raising one included. -/
def waitCfgAux (cfgExists simAlive : Nat → Bool) : Nat → Nat → List REv × CfgWaitRes
  | 0, i =>
    if !(cfgExists i) && simAlive i then ([REv.sleepMs 100], CfgWaitRes.timedOut)
    else ([], CfgWaitRes.left i)
  | fuel + 1, i =>
    if !(cfgExists i) && simAlive i then
      let r := waitCfgAux cfgExists simAlive fuel (i + 1)
      (REv.sleepMs 100 :: r.1, r.2)
    else ([], CfgWaitRes.left i)

/-- The config-file wait loop started with `checkCount = 0`: the counter may
reach 201 before the raise, i.e. 200 further iterations after the first. -/
def waitCfg (cfgExists simAlive : Nat → Bool) : List REv × CfgWaitRes :=
  waitCfgAux cfgExists simAlive 200 0

/-- Result of the port-parsing loop: a port, a `FileNotFoundError` raised by
`open(portFileName)` on a missing file, or non-termination (the real loop has
no bound; the model's fuel ran out while the loop was still spinning). -/
inductive PortLoopRes
  | ok (p : Int)
  | fnf
  | outOfFuel
  deriving DecidableEq

/-- One scan of the file (the `for line in portFile.readlines()` body):
every matching line overwrites `port`. -/
def scanPortGo (acc : Int) : List String → Int
  | [] => acc
  | l :: ls =>
    scanPortGo (match matchPortLine l with | some n => (n : Int) | none => acc) ls

/-- Scanning one snapshot of the file starting from `port = -1` (the loop
re-enters the scan only while `port < 0`, so the accumulator is `-1` at the
start of every scan). -/
def scanPort (ls : List String) : Int := scanPortGo (-1) ls

/-- The value of the last matching line of a snapshot, if any. -/
def lastMatch : List String → Option Nat
  | [] => none
  | l :: ls =>
    match lastMatch ls with
    | some n => some n
    | none => matchPortLine l

/-- The `while port < 0` re-read loop.  `snapshots j` is the content of the
config file (as a list of lines) at the `j`-th `open`, or `none` when the
file does not exist at that moment, in which case `open` raises
`FileNotFoundError`. -/
def portLoopAux (snapshots : Nat → Option (List String)) : Nat → Nat → PortLoopRes
  | 0, j =>
    match snapshots j with
    | none => PortLoopRes.fnf
    | some ls => if scanPort ls < 0 then PortLoopRes.outOfFuel else PortLoopRes.ok (scanPort ls)
  | fuel + 1, j =>
    match snapshots j with
    | none => PortLoopRes.fnf
    | some ls =>
      if scanPort ls < 0 then portLoopAux snapshots fuel (j + 1)
      else PortLoopRes.ok (scanPort ls)

/-! ### Readiness probe (isPortOpen, lines 299-303, and run(), lines 194-202)

`isPortOpen` creates a TCP socket, calls `connect_ex` (which reports failure
through its return value instead of raising), closes the socket
unconditionally, and reports readiness exactly when the connect result is 0.
The probe loop retries while the port is closed, raising the timeout
exception when the counter exceeds 200 (checked before the liveness check),
raising "Simulation exited early" when the process has exited, and otherwise
sleeping 50 ms before the next attempt. -/

/-- `isPortOpen`: readiness flag and the socket events of one attempt. -/
def isPortOpen (connectResult : Int) : Bool × List REv :=
  (decide (connectResult = 0), [REv.sockCreate, REv.sockConnect, REv.sockClose])

/-- Outcome of the readiness-probe loop. -/
inductive ProbeOutcome
  | ready
  | rpcTimeout
  | exitedEarly
  deriving DecidableEq

/-- The readiness-probe loop.  `connRes i` is the `connect_ex` result of the
`i`-th attempt and `alive i` the `simProc.poll() is None` oracle at the
`i`-th liveness check.  Fuel 0 corresponds to the 201st failed attempt, at
which the counter exceeds 200 and the timeout is raised before the liveness
check. -/
def rpcWaitAux (connRes : Nat → Int) (alive : Nat → Bool) : Nat → Nat → List REv × ProbeOutcome
  | 0, i =>
    let p := isPortOpen (connRes i)
    if p.1 then (p.2, ProbeOutcome.ready) else (p.2, ProbeOutcome.rpcTimeout)
  | fuel + 1, i =>
    let p := isPortOpen (connRes i)
    if p.1 then (p.2, ProbeOutcome.ready)
    else if !(alive i) then (p.2, ProbeOutcome.exitedEarly)
    else
      let r := rpcWaitAux connRes alive fuel (i + 1)
      (p.2 ++ (REv.sleepMs 50 :: r.1), r.2)

/-- The readiness-probe loop started with `checkCount = 0`. -/
def rpcWait (connRes : Nat → Int) (alive : Nat → Bool) : List REv × ProbeOutcome :=
  rpcWaitAux connRes alive 200 0

/-- The event trace of a probe loop all of whose connect attempts fail with
the process alive: one socket create/connect/close triple per attempt and a
50 ms sleep between consecutive attempts. -/
def rpcFailTrace : Nat → List REv
  | 0 => [REv.sockCreate, REv.sockConnect, REv.sockClose]
  | f + 1 => [REv.sockCreate, REv.sockConnect, REv.sockClose, REv.sleepMs 50] ++ rpcFailTrace f

/-! ### Log aggregation (readLogs, lines 268-296) -/

/-- `readLogs`: reads the four log files (`none` models a missing file, on
which `open` raises `FileNotFoundError`), concatenates the labelled report,
omits a stderr section when it is empty, and flags whether any stderr content
was seen. -/
def readLogs (simOut simErr testOut testErr : Option String) : Except Unit (Bool × String) :=
  match simOut with
  | none => Except.error ()
  | some so =>
    let ret1 := "----- Simulation stdout -----\n" ++ so
    match simErr with
    | none => Except.error ()
    | some se =>
      let fe1 : Bool := if se = "" then false else true
      let ret2 := if se = "" then ret1 else ret1 ++ "\n----- Simulation stderr -----\n" ++ se
      let ret3 := ret2 ++ "\n----- Test stdout -----\n"
      match testOut with
      | none => Except.error ()
      | some tOut =>
        let ret4 := ret3 ++ tOut
        match testErr with
        | none => Except.error ()
        | some te =>
          let fe2 : Bool := if te = "" then fe1 else true
          let ret5 := if te = "" then ret4 else ret4 ++ "\n----- Test stderr -----\n" ++ te
          Except.ok (fe2, ret5)

/-- The pass/fail decision of the finally block (lines 258-262): with a test
process, pass iff its exit code is 0 and no stderr content was flagged; with
`testProc is None` (server-only mode, or any exception before the test ran)
the run never passes. -/
def verdict (testProc : Option Int) (err : Bool) : Bool :=
  match testProc with
  | some rc => decide (rc = 0) && !err
  | none => false

/-! ### The orchestrator run() (lines 132-266) -/

/-- The teardown step of the finally block (lines 245-252): SIGINT to the
process group, `wait(timeout=1.0)`, and `kill()` when the wait timed out. -/
def teardown (simWaitTimeout : Bool) : List REv :=
  [REv.killpg, REv.waitSim] ++ (if simWaitTimeout then [REv.killSim] else [])

/-- Failure modes of run(): `popenFail` models `subprocess.Popen` raising
(simProc stays None); `cfgTimeout` the "Cosim never wrote cfg file"
exception; `cfgFnf` the `FileNotFoundError` from opening a missing config
file; `rpcTimeout` the "Cosim RPC port never opened" exception;
`simExitedEarly` the "Simulation exited early" exception; `logsFnf` a
`FileNotFoundError` raised by readLogs inside the finally block. -/
inductive RunErr
  | popenFail
  | cfgTimeout
  | cfgFnf
  | rpcTimeout
  | simExitedEarly
  | logsFnf
  deriving DecidableEq

/-- How the try-block of run() ended: an exception, the unbounded port loop
still spinning, or reaching the end with `testProc` as recorded. -/
inductive BodyRes
  | raised (e : RunErr)
  | hung
  | finished (testProc : Option Int)
  deriving DecidableEq

/-- Result of run(): non-termination, a propagated exception, or a returned
exit code. -/
inductive RunOutcome
  | hung
  | raised (e : RunErr)
  | ok (r : Int)
  deriving DecidableEq

/-- Oracle environment for one invocation of run(): the constructor-derived
mode flags and the outcomes of every external interaction. -/
structure RunEnv where
  interactive : Bool
  server_only : Bool
  exec : Bool
  popenOk : Bool
  cfgExists0 : Bool
  cfgExists : Nat → Bool
  simAliveCfg : Nat → Bool
  snapshots : Nat → Option (List String)
  portFuel : Nat
  connRes : Nat → Int
  simAliveRpc : Nat → Bool
  testRc : Int
  simWaitTimeout : Bool
  simOutLog : String
  simErrLog : String
  testOutLog : String
  testErrLog : String
  staleTestOut : Option String
  staleTestErr : Option String

/-- The log-file opens at the top of run() (lines 145-152): the simulation
logs always, the test logs only in non-interactive mode. -/
def openEvs (interactive : Bool) : List REv :=
  [REv.openW "sim_stdout.log", REv.openW "sim_stderr.log"] ++
    (if interactive then [] else [REv.openW "test_stdout.log", REv.openW "test_stderr.log"])

/-- The try-block of run() (lines 141-242): open logs, delete a stale config
file, launch the simulation, close the simulation log handles, wait for the
config file, parse the port, wait for the RPC port, write the script (unless
in exec mode), then either prompt (server-only) or run the test process.
The middle component records whether `simProc` is not None at the moment the
finally block starts. -/
def runBody (env : RunEnv) : List REv × Bool × BodyRes :=
  let evs0 := openEvs env.interactive ++
    (if env.cfgExists0 then [REv.removeCfg] else []) ++ [REv.printInfo]
  if env.popenOk = false then (evs0, false, BodyRes.raised RunErr.popenFail)
  else
    let evs1 := evs0 ++ [REv.popen, REv.closeF "sim_stderr.log", REv.closeF "sim_stdout.log"]
    let w := waitCfg env.cfgExists env.simAliveCfg
    match w.2 with
    | CfgWaitRes.timedOut => (evs1 ++ w.1, true, BodyRes.raised RunErr.cfgTimeout)
    | CfgWaitRes.left _ =>
      match portLoopAux env.snapshots env.portFuel 0 with
      | PortLoopRes.fnf => (evs1 ++ w.1, true, BodyRes.raised RunErr.cfgFnf)
      | PortLoopRes.outOfFuel => (evs1 ++ w.1, true, BodyRes.hung)
      | PortLoopRes.ok _ =>
        let r := rpcWait env.connRes env.simAliveRpc
        let evs2 := evs1 ++ w.1 ++ r.1
        match r.2 with
        | ProbeOutcome.rpcTimeout => (evs2, true, BodyRes.raised RunErr.rpcTimeout)
        | ProbeOutcome.exitedEarly => (evs2, true, BodyRes.raised RunErr.simExitedEarly)
        | ProbeOutcome.ready =>
          let evs3 := evs2 ++ (if env.exec = false then [REv.writeScriptF] else [])
          if env.server_only then (evs3 ++ [REv.prompt], true, BodyRes.finished none)
          else
            (evs3 ++ [REv.printInfo, REv.runTest] ++
               (if env.interactive then []
                else [REv.closeF "test_stdout.log", REv.closeF "test_stderr.log"]),
             true, BodyRes.finished (some env.testRc))

/-- What readLogs finds in the finally block: the simulation logs were opened
for writing at the top of run(), so they exist; the test logs exist only in
non-interactive mode (in interactive mode only a stale file from an earlier
invocation could be present). -/
def logsInput (env : RunEnv) : Except Unit (Bool × String) :=
  readLogs (some env.simOutLog) (some env.simErrLog)
    (if env.interactive then env.staleTestOut else some env.testOutLog)
    (if env.interactive then env.staleTestErr else some env.testErrLog)

/-- run() in full: the try-block, then the finally block (teardown when
`simProc` is set, the run-time print, log aggregation, the failure print),
then `return 0 if passed else 1` when the body did not raise.  An exception
raised by readLogs inside the finally block replaces the in-flight
exception. -/
def runModel (env : RunEnv) : List REv × RunOutcome :=
  let b := runBody env
  match b.2.2 with
  | BodyRes.hung => (b.1, RunOutcome.hung)
  | BodyRes.raised e =>
    let td := if b.2.1 then teardown env.simWaitTimeout else []
    match logsInput env with
    | Except.error _ => (b.1 ++ td ++ [REv.printInfo], RunOutcome.raised RunErr.logsFnf)
    | Except.ok _ => (b.1 ++ td ++ [REv.printInfo, REv.printLogs], RunOutcome.raised e)
  | BodyRes.finished tp =>
    let td := if b.2.1 then teardown env.simWaitTimeout else []
    match logsInput env with
    | Except.error _ => (b.1 ++ td ++ [REv.printInfo], RunOutcome.raised RunErr.logsFnf)
    | Except.ok pr =>
      let passed := verdict tp pr.1
      (b.1 ++ td ++ [REv.printInfo] ++ (if passed then [] else [REv.printLogs]),
       RunOutcome.ok (if passed then 0 else 1))

/-! ### The compile step (compile, lines 83-100) and the entry point
(__main__, lines 306-364) -/

/-- Oracle for the compile subprocess: its exit code and captured streams. -/
structure CompileEnv where
  rc : Int
  out : String
  errOut : String

/-- The combined compiler output string built at line 95. -/
def compileOutput (ce : CompileEnv) : String :=
  ce.out ++ "\n----- STDERR ------\n" ++ ce.errOut

/-- compile(): print the command, run the subprocess, print the failure
banner and the captured output when the exit code is nonzero, print the
compile time, and return the subprocess exit code. -/
def compileModel (ce : CompileEnv) : List REv × Int :=
  ([REv.printInfo, REv.subprocRun] ++
     (if ce.rc = 0 then [] else [REv.printCompileFail, REv.printCompileOut (compileOutput ce)]) ++
     [REv.printInfo],
   ce.rc)

/-- Result of __main__: usage text (returns None, so `sys.exit(None)` exits
with 0), the constructor exception propagating uncaught, a returned exit
code, an exception escaping run(), or run() never returning. -/
inductive MainRes
  | usage
  | initException (msg : String)
  | code (r : Int)
  | runException (e : RunErr)
  | hung
  deriving DecidableEq

/-- Lines 361-364 of __main__: run compile(); on a nonzero result return it
as the exit code without calling run(); otherwise return what run() returns. -/
def mainDispatch (ce : CompileEnv) (re : RunEnv) : List REv × MainRes :=
  let c := compileModel ce
  if c.2 = 0 then
    let r := runModel re
    (c.1 ++ r.1,
     match r.2 with
     | RunOutcome.ok v => MainRes.code v
     | RunOutcome.raised e => MainRes.runException e
     | RunOutcome.hung => MainRes.hung)
  else (c.1, MainRes.code c.2)

/-- The DPI-library guard of __init__ (line 52): `"" == "" or not
os.path.exists("")`.  The left disjunct is a comparison of two empty string
literals, so the guard holds whatever the filesystem says. -/
def initRaises (pathExists : String → Bool) : Bool :=
  ("" == "") || !(pathExists "")

/-- The message of the exception raised by the guard (lines 53-54). -/
def dpiErrMsg : String :=
  "The ESI cosimulation DPI library must be enabled to run cosim tests."

/-- __main__ (lines 346-364): with at most one argv entry print the help and
return; otherwise construct the runner (whose __init__ checks the DPI guard
before anything else observable) and only then compile and run. -/
def mainModelT (argc : Nat) (pathExists : String → Bool) (ce : CompileEnv) (re : RunEnv) :
    List REv × MainRes :=
  if argc ≤ 1 then ([], MainRes.usage)
  else if initRaises pathExists then ([], MainRes.initException dpiErrMsg)
  else mainDispatch ce re

/-! ### The generated test script (writeScript, lines 102-130) -/

/-- The text written to `script.py`: the three config variables (in the dict
insertion order of line 108), a blank separator, the import/path preamble,
the tmpdir and host:port connection variables, then one line per directive
collected from the source file, in order.  `srcdir` stands for
`os.path.dirname(self.file)` (used at lines 109 and 123) and `thisdir` for
`os.path.dirname(__file__)`. -/
def writeScriptText (srcdir srcfile schema tmpdir thisdir : String) (port : Nat)
    (runs : List String) : String :=
  "srcdir = \"" ++ srcdir ++ "\"\n" ++
  "srcfile = \"" ++ srcfile ++ "\"\n" ++
  "rpcschemapath = \"" ++ schema ++ "\"\n" ++
  "\n\n" ++
  "import os\n" ++
  "import sys\n" ++
  "sys.path.append(\"" ++ srcdir ++ "\")\n" ++
  "sys.path.append(\"" ++ thisdir ++ "\")\n" ++
  "\n\n" ++
  "tmpdir = \x27" ++ tmpdir ++ "\x27\n" ++
  "simhostport = f\x27\x7bos.uname()[1]\x7d:" ++ toString port ++ "\x27\n" ++
  String.join (runs.map (fun x => x ++ "\n"))

/-! ### Concrete environments used by witnesses and counterexamples -/

/-- A run in which every phase succeeds at once: the config file exists with
a valid port line, the first connect succeeds, the test exits 0 and nothing
is written to either stderr log. -/
def baseEnv : RunEnv where
  interactive := false
  server_only := false
  exec := false
  popenOk := true
  cfgExists0 := false
  cfgExists := fun _ => true
  simAliveCfg := fun _ => true
  snapshots := fun _ => some ["port: 1234"]
  portFuel := 5
  connRes := fun _ => 0
  simAliveRpc := fun _ => true
  testRc := 0
  simWaitTimeout := false
  simOutLog := ""
  simErrLog := ""
  testOutLog := ""
  testErrLog := ""
  staleTestOut := none
  staleTestErr := none

/-- The same successful world, but driven in server-only mode: the operator
terminates the server at the prompt. -/
def env9 : RunEnv := { baseEnv with server_only := true }

/-- A world in which the simulation process has already exited at the first
liveness check and the config file never appears. -/
def env7 : RunEnv :=
  { baseEnv with
    cfgExists := fun _ => false
    simAliveCfg := fun _ => false
    snapshots := fun _ => none }

/-- A compile step failing with exit code 2. -/
def ce2 : CompileEnv where
  rc := 2
  out := ""
  errOut := ""

/-! ## Helper lemmas -/

/-- Appending the empty string on the right is the identity. -/
theorem str_append_empty (s : String) : s ++ "" = s := by
  cases s with
  | mk d => exact congrArg String.mk (List.append_nil d)

/-- When the config file never appears and the simulation stays alive, the
wait loop sleeps once per body execution and raises after the budget is
gone. -/
theorem waitCfgAux_timeout (c s : Nat → Bool) (hc : ∀ j, c j = false)
    (hs : ∀ j, s j = true) :
    ∀ fuel i, waitCfgAux c s fuel i =
      (List.replicate (fuel + 1) (REv.sleepMs 100), CfgWaitRes.timedOut) := by
  intro fuel
  induction fuel with
  | zero => intro i; simp [waitCfgAux, hc, hs]
  | succ f ih => intro i; simp [waitCfgAux, hc, hs, ih (i + 1), List.replicate_succ]

/-- When the config file never appears and the simulation is alive for
exactly the first `k` liveness checks, the wait loop leaves after `k`
sleeps. -/
theorem waitCfgAux_exit (c s : Nat → Bool) (k : Nat) (hc : ∀ j, c j = false)
    (hs : ∀ j, s j = decide (j < k)) :
    ∀ fuel i, i ≤ k → k - i ≤ fuel →
      waitCfgAux c s fuel i = (List.replicate (k - i) (REv.sleepMs 100), CfgWaitRes.left k) := by
  intro fuel
  induction fuel with
  | zero =>
    intro i hik hf
    have hik' : i = k := by omega
    subst hik'
    simp [waitCfgAux, hc, hs]
  | succ f ih =>
    intro i hik hf
    by_cases hik' : i = k
    · subst hik'; simp [waitCfgAux, hc, hs]
    · have hlt : i < k := by omega
      have hsi : s i = true := by rw [hs]; simp [hlt]
      have hrec := ih (i + 1) (by omega) (by omega)
      have hk : k - i = (k - (i + 1)) + 1 := by omega
      simp only [waitCfgAux, hc, hsi, Bool.not_false, Bool.and_self, if_pos, hrec, hk,
        List.replicate_succ]

/-- Scanning a snapshot computes the value of its last matching line, with
the accumulator as the default. -/
theorem scanPortGo_lastMatch (ls : List String) :
    ∀ a : Int, scanPortGo a ls =
      (match lastMatch ls with | some n => (n : Int) | none => a) := by
  induction ls with
  | nil => intro a; simp [scanPortGo, lastMatch]
  | cons l t ih =>
    intro a
    simp only [scanPortGo, lastMatch]
    rw [ih]
    cases hlm : lastMatch t with
    | some n => simp
    | none => cases hm : matchPortLine l <;> simp

/-- A snapshot whose last matching line has value `n` scans to `n`. -/
theorem scanPort_lastMatch (ls : List String) (n : Nat) (h : lastMatch ls = some n) :
    scanPort ls = (n : Int) := by
  rw [scanPort, scanPortGo_lastMatch, h]

/-- The port loop only ever returns the scan value of an existing snapshot,
and that value is non-negative. -/
theorem portLoopAux_ok (snaps : Nat → Option (List String)) :
    ∀ fuel j p, portLoopAux snaps fuel j = PortLoopRes.ok p →
      ∃ k ls, snaps k = some ls ∧ scanPort ls = p ∧ 0 ≤ p := by
  intro fuel
  induction fuel with
  | zero =>
    intro j p h
    simp only [portLoopAux] at h
    cases hs : snaps j with
    | none => rw [hs] at h; simp at h
    | some ls =>
      rw [hs] at h
      by_cases hlt : scanPort ls < 0
      · simp [hlt] at h
      · simp [hlt] at h
        exact ⟨j, ls, hs, h, h ▸ not_lt.mp hlt⟩
  | succ f ih =>
    intro j p h
    simp only [portLoopAux] at h
    cases hs : snaps j with
    | none => rw [hs] at h; simp at h
    | some ls =>
      rw [hs] at h
      by_cases hlt : scanPort ls < 0
      · simp only [hlt, if_true] at h
        exact ih (j + 1) p h
      · simp [hlt] at h
        exact ⟨j, ls, hs, h, h ▸ not_lt.mp hlt⟩

/-- Opening a missing config file fails no matter how much fuel the loop
has. -/
theorem portLoopAux_none (snaps : Nat → Option (List String)) (fuel j : Nat)
    (h : snaps j = none) : portLoopAux snaps fuel j = PortLoopRes.fnf := by
  cases fuel <;> simp [portLoopAux, h]

/-- The probe loop reports readiness only after a connect attempt returned
0. -/
theorem rpcWaitAux_ready (cr : Nat → Int) (a : Nat → Bool) :
    ∀ fuel i, (rpcWaitAux cr a fuel i).2 = ProbeOutcome.ready → ∃ k, cr k = 0 := by
  intro fuel
  induction fuel with
  | zero =>
    intro i h
    by_cases hp : (isPortOpen (cr i)).1
    · exact ⟨i, by simpa [isPortOpen] using hp⟩
    · simp [rpcWaitAux, hp] at h
  | succ f ih =>
    intro i h
    by_cases hp : (isPortOpen (cr i)).1
    · exact ⟨i, by simpa [isPortOpen] using hp⟩
    · by_cases ha : a i
      · simp only [rpcWaitAux, hp, ha] at h
        simp at h
        exact ih (i + 1) h
      · simp [rpcWaitAux, hp, ha] at h

/-- When the port never opens and the process stays alive, the probe loop
times out with the expected trace. -/
theorem rpcWaitAux_timeout (cr : Nat → Int) (a : Nat → Bool)
    (hc : ∀ i, cr i ≠ 0) (ha : ∀ i, a i = true) :
    ∀ fuel i, rpcWaitAux cr a fuel i = (rpcFailTrace fuel, ProbeOutcome.rpcTimeout) := by
  intro fuel
  induction fuel with
  | zero => intro i; simp [rpcWaitAux, isPortOpen, hc i, rpcFailTrace]
  | succ f ih => intro i; simp [rpcWaitAux, isPortOpen, hc i, ha i, rpcFailTrace, ih (i + 1)]

/-- Attempt and sleep counts of the failing probe trace. -/
theorem rpcFailTrace_counts : ∀ f, (rpcFailTrace f).count REv.sockConnect = f + 1 ∧
    (rpcFailTrace f).count (REv.sleepMs 50) = f ∧
    (rpcFailTrace f).count REv.sockClose = f + 1 := by
  intro f
  induction f with
  | zero => exact ⟨by decide, by decide, by decide⟩
  | succ f ih =>
    obtain ⟨h1, h2, h3⟩ := ih
    refine ⟨?_, ?_, ?_⟩ <;> rw [rpcFailTrace, List.count_append]
    · rw [h1]
      have : List.count REv.sockConnect
          [REv.sockCreate, REv.sockConnect, REv.sockClose, REv.sleepMs 50] = 1 := by decide
      omega
    · rw [h2]
      have : List.count (REv.sleepMs 50)
          [REv.sockCreate, REv.sockConnect, REv.sockClose, REv.sleepMs 50] = 1 := by decide
      omega
    · rw [h3]
      have : List.count REv.sockClose
          [REv.sockCreate, REv.sockConnect, REv.sockClose, REv.sleepMs 50] = 1 := by decide
      omega

/-- When every connect attempt up to the `d`-th fails and the process is
first seen dead at the `d`-th liveness check, within the budget, the probe
loop raises the early-exit error. -/
theorem rpcWaitAux_early (cr : Nat → Int) (a : Nat → Bool) :
    ∀ d fuel i, (∀ t, t ≤ d → cr (i + t) ≠ 0) → (∀ t, t < d → a (i + t) = true) →
      a (i + d) = false → d < fuel →
      (rpcWaitAux cr a fuel i).2 = ProbeOutcome.exitedEarly := by
  intro d
  induction d with
  | zero =>
    intro fuel i hcr ha hd hf
    obtain ⟨f, rfl⟩ : ∃ f, fuel = f + 1 := ⟨fuel - 1, by omega⟩
    have hci : cr i ≠ 0 := by simpa using hcr 0 (Nat.le_refl 0)
    have hp : (isPortOpen (cr i)).1 = false := by simp [isPortOpen, hci]
    have hai : a i = false := by simpa using hd
    simp [rpcWaitAux, hp, hai]
  | succ d ih =>
    intro fuel i hcr ha hd hf
    obtain ⟨f, rfl⟩ : ∃ f, fuel = f + 1 := ⟨fuel - 1, by omega⟩
    have hci : cr i ≠ 0 := by simpa using hcr 0 (Nat.zero_le _)
    have hp : (isPortOpen (cr i)).1 = false := by simp [isPortOpen, hci]
    have hai : a i = true := by simpa using ha 0 (Nat.succ_pos d)
    have hrec : (rpcWaitAux cr a f (i + 1)).2 = ProbeOutcome.exitedEarly := by
      refine ih f (i + 1) (fun t ht => ?_) (fun t ht => ?_) ?_ (by omega)
      · have := hcr (t + 1) (by omega)
        rwa [show i + (t + 1) = i + 1 + t by omega] at this
      · have := ha (t + 1) (by omega)
        rwa [show i + (t + 1) = i + 1 + t by omega] at this
      · have := hd
        rwa [show i + (d + 1) = i + 1 + d by omega] at this
    simp [rpcWaitAux, hp, hai, hrec]

/-- The outcome of run() as a function of the body outcome and the
aggregation result. -/
theorem runModel_snd (env : RunEnv) :
    (runModel env).2 =
      (match (runBody env).2.2 with
       | BodyRes.hung => RunOutcome.hung
       | BodyRes.raised e =>
         (match logsInput env with
          | Except.error _ => RunOutcome.raised RunErr.logsFnf
          | Except.ok _ => RunOutcome.raised e)
       | BodyRes.finished tp =>
         (match logsInput env with
          | Except.error _ => RunOutcome.raised RunErr.logsFnf
          | Except.ok pr => RunOutcome.ok (if verdict tp pr.1 then 0 else 1))) := by
  simp only [runModel]
  cases hres : (runBody env).2.2 with
  | hung => simp
  | raised e => cases hl : logsInput env <;> simp [hl]
  | finished tp => cases hl : logsInput env <;> simp [hl]

/-- The test-process slot at the end of the body is `None` exactly in
server-only mode. -/
theorem runBody_finished_tp (env : RunEnv) (tp : Option Int)
    (h : (runBody env).2.2 = BodyRes.finished tp) :
    tp = (if env.server_only then none else some env.testRc) := by
  simp only [runBody] at h
  split at h
  · simp at h
  · split at h
    · simp at h
    · split at h
      · simp at h
      · simp at h
      · split at h
        · simp at h
        · simp at h
        · split at h <;> simp_all

/-- run() only ever returns the exit codes 0 and 1 when it returns at all. -/
theorem runModel_ok_01 (env : RunEnv) (r : Int)
    (h : (runModel env).2 = RunOutcome.ok r) : r = 0 ∨ r = 1 := by
  rw [runModel_snd] at h
  cases hres : (runBody env).2.2 with
  | hung => rw [hres] at h; simp at h
  | raised e => rw [hres] at h; cases hl : logsInput env <;> rw [hl] at h <;> simp at h
  | finished tp =>
    rw [hres] at h
    cases hl : logsInput env with
    | error u => rw [hl] at h; simp at h
    | ok pr =>
      rw [hl] at h
      by_cases hv : verdict tp pr.1 <;> simp [hv] at h <;> omega

/-! ## Claims -/

/-- Claim C5: for every run that reaches log aggregation with a test process,
non-empty captured simulation stderr or test stderr forces the verdict to
failure even when the test exit code is zero, and a pass requires test exit
code zero together with both stderr captures empty. -/
theorem c5_stderr_forces_failure :
    ∀ (so se tOut te : String) (err : Bool) (logs : String) (rc : Int),
      readLogs (some so) (some se) (some tOut) (some te) = Except.ok (err, logs) →
      ((se ≠ "" ∨ te ≠ "") → verdict (some rc) err = false) ∧
      (verdict (some rc) err = true ↔ (rc = 0 ∧ se = "" ∧ te = "")) := by
  intro so se tOut te err logs rc h
  simp only [readLogs] at h
  have herr : err = (if te = "" then (if se = "" then false else true) else true) := by
    by_cases hse : se = "" <;> by_cases hte : te = "" <;>
      simp [hse, hte] at h ⊢ <;> exact h.1
  subst herr
  by_cases hse : se = "" <;> by_cases hte : te = "" <;> by_cases hrc : rc = 0 <;>
    simp [verdict, hse, hte, hrc]

/-- Witness for C5 at a concrete input: a run with empty test stderr but a
non-empty simulation stderr fails even though the test exited 0. -/
theorem c5_stderr_forces_failure_witness :
    verdict (some 0) ((readLogs (some "") (some "warn") (some "") (some "")).toOption.map
      Prod.fst).iget = false ∧ verdict (some 0) false = true := by
  have h := c5_stderr_forces_failure "" "warn" "" ""
    true ("----- Simulation stdout -----\n" ++ "\n----- Simulation stderr -----\nwarn" ++
      "\n----- Test stdout -----\n") 0 (by rfl)
  refine ⟨?_, ?_⟩
  · exact h.1 (Or.inl (by decide))
  · have h2 := (c5_stderr_forces_failure "" "" "" ""
      false ("----- Simulation stdout -----\n" ++ "\n----- Test stdout -----\n") 0 (by rfl)).2
    exact h2.mpr ⟨rfl, rfl, rfl⟩

/-- Claim C6: while the simulation stays alive, port discovery polls the
config file at 100 ms intervals and raises once the 200-attempt budget is
exceeded; a port is only returned once some snapshot of the file contains a
`port: <digits>` line, the returned value is the last matching line of that
snapshot, and the file `garbage\port: 4711` yields 4711. -/
theorem c6_port_discovery :
    (∀ c s : Nat → Bool, (∀ j, c j = false) → (∀ j, s j = true) →
       waitCfg c s = (List.replicate 201 (REv.sleepMs 100), CfgWaitRes.timedOut)) ∧
    (∀ (snaps : Nat → Option (List String)) (fuel j : Nat) (p : Int),
       portLoopAux snaps fuel j = PortLoopRes.ok p →
       ∃ k ls n, snaps k = some ls ∧ lastMatch ls = some n ∧ p = (n : Int)) ∧
    (∀ (ls : List String) (n : Nat), lastMatch ls = some n → scanPort ls = (n : Int)) ∧
    matchPortLine "garbage" = none ∧
    matchPortLine "port: 4711" = some 4711 ∧
    portLoopAux (fun _ => some ["garbage", "port: 4711"]) 0 0 = PortLoopRes.ok 4711 := by
  refine ⟨?_, ?_, scanPort_lastMatch, by decide, by decide, by decide⟩
  · intro c s hc hs
    exact waitCfgAux_timeout c s hc hs 200 0
  · intro snaps fuel j p h
    obtain ⟨k, ls, hk, hscan, hpos⟩ := portLoopAux_ok snaps fuel j p h
    cases hlm : lastMatch ls with
    | none =>
      rw [scanPort, scanPortGo_lastMatch, hlm] at hscan
      simp at hscan
      omega
    | some n =>
      refine ⟨k, ls, n, hk, hlm, ?_⟩
      rw [scanPort, scanPortGo_lastMatch, hlm] at hscan
      simp at hscan
      omega

/-- Witness for C6 at concrete inputs: the always-absent file times out after
201 sleeps of 100 ms, and the two-line file yields the port 4711 from its
last matching line. -/
theorem c6_port_discovery_witness :
    waitCfg (fun _ => false) (fun _ => true) =
      (List.replicate 201 (REv.sleepMs 100), CfgWaitRes.timedOut) ∧
    (∃ k ls n, (fun _ : Nat => some ["garbage", "port: 4711"]) k = some ls ∧
      lastMatch ls = some n ∧ (4711 : Int) = (n : Int)) ∧
    scanPort ["garbage", "port: 4711"] = (4711 : Int) := by
  refine ⟨c6_port_discovery.1 _ _ (fun _ => rfl) (fun _ => rfl), ?_, ?_⟩
  · exact c6_port_discovery.2.1 _ 0 0 4711 c6_port_discovery.2.2.2.2.2
  · exact c6_port_discovery.2.2.1 ["garbage", "port: 4711"] 4711 (by decide)

/-- Counterexample to claim C7: when the simulation has already exited at the
first liveness check and the config file never appears, the error that
propagates out of port discovery is the `FileNotFoundError` from opening the
missing config file, not the "Simulation exited early" exception (the only
exited-early error in the program, raised by the readiness probe). -/
theorem c7_counterexample :
    (runModel env7).2 = RunOutcome.raised RunErr.cfgFnf ∧
    RunErr.cfgFnf ≠ RunErr.simExitedEarly := by
  exact ⟨by decide, by decide⟩

/-- Claim C7 as amended: if the simulation process exits at the `k`-th
liveness check before writing the config file, the wait loop stops
immediately after `k` sleeps — it does not wait out the remaining retry
budget — and run() then fails at once with the `FileNotFoundError` raised by
opening the missing config file. -/
theorem c7_exit_before_cfg_amended (env : RunEnv) (k : Nat)
    (hk : k ≤ 200) (hp : env.popenOk = true) (hi : env.interactive = false)
    (hc : ∀ j, env.cfgExists j = false) (hs : ∀ j, env.simAliveCfg j = decide (j < k))
    (hsn : ∀ j, env.snapshots j = none) :
    waitCfg env.cfgExists env.simAliveCfg =
      (List.replicate k (REv.sleepMs 100), CfgWaitRes.left k) ∧
    (runModel env).2 = RunOutcome.raised RunErr.cfgFnf := by
  have hw : waitCfg env.cfgExists env.simAliveCfg =
      (List.replicate k (REv.sleepMs 100), CfgWaitRes.left k) := by
    have := waitCfgAux_exit env.cfgExists env.simAliveCfg k hc hs 200 0 (by omega) (by omega)
    simpa [waitCfg] using this
  refine ⟨hw, ?_⟩
  have hport : portLoopAux env.snapshots env.portFuel 0 = PortLoopRes.fnf :=
    portLoopAux_none _ _ _ (hsn 0)
  have hres : (runBody env).2.2 = BodyRes.raised RunErr.cfgFnf := by
    simp [runBody, hp, hw, hport]
  cases hl : logsInput env with
  | error u =>
    exfalso
    simp [logsInput, hi, readLogs] at hl
  | ok pr => rw [runModel_snd, hres, hl]

/-- Witness for the amended C7: the process dead from the very first check
means zero sleeps and an immediate `FileNotFoundError`. -/
theorem c7_exit_before_cfg_amended_witness :
    waitCfg env7.cfgExists env7.simAliveCfg = ([], CfgWaitRes.left 0) ∧
    (runModel env7).2 = RunOutcome.raised RunErr.cfgFnf := by
  have h := c7_exit_before_cfg_amended env7 0 (by omega) rfl rfl
    (fun _ => rfl) (fun _ => rfl) (fun _ => rfl)
  exact ⟨by simpa using h.1, h.2⟩

/-- Claim C8: the readiness probe reports ready only after a connect
succeeded; it checks process liveness on each in-budget iteration and raises
the early-exit error instead of continuing once the process has exited; when
the port never opens and the process stays alive it times out after 201
attempts (the counter must exceed 200) with 200 sleeps of 50 ms between
them; and every attempt closes its socket whether the connect succeeded or
failed. -/
theorem c8_readiness_probe :
    (∀ (cr : Nat → Int) (a : Nat → Bool),
       (rpcWait cr a).2 = ProbeOutcome.ready → ∃ k, cr k = 0) ∧
    (∀ (cr : Nat → Int) (a : Nat → Bool) (k : Nat), k < 200 →
       (∀ i, i ≤ k → cr i ≠ 0) → (∀ i, i < k → a i = true) → a k = false →
       (rpcWait cr a).2 = ProbeOutcome.exitedEarly) ∧
    (∀ (cr : Nat → Int) (a : Nat → Bool), (∀ i, cr i ≠ 0) → (∀ i, a i = true) →
       (rpcWait cr a).2 = ProbeOutcome.rpcTimeout ∧
       (rpcWait cr a).1.count REv.sockConnect = 201 ∧
       (rpcWait cr a).1.count (REv.sleepMs 50) = 200 ∧
       (rpcWait cr a).1.count REv.sockClose = 201) ∧
    (∀ r : Int, (isPortOpen r).2 = [REv.sockCreate, REv.sockConnect, REv.sockClose] ∧
       ((isPortOpen r).1 = true ↔ r = 0)) := by
  refine ⟨?_, ?_, ?_, ?_⟩
  · intro cr a h
    exact rpcWaitAux_ready cr a 200 0 h
  · intro cr a k hk hcr ha hdead
    refine rpcWaitAux_early cr a k 200 0 (fun t ht => by simpa using hcr t ht)
      (fun t ht => by simpa using ha t ht) (by simpa using hdead) hk
  · intro cr a hcr ha
    have ht := rpcWaitAux_timeout cr a hcr ha 200 0
    have hcounts := rpcFailTrace_counts 200
    rw [rpcWait, ht]
    exact ⟨rfl, hcounts.1, hcounts.2.1, hcounts.2.2⟩
  · intro r
    constructor
    · rfl
    · simp [isPortOpen]

/-- Witness for C8 at concrete inputs: an immediately-open port is the only
way to be ready, a process dead at the second check raises the early-exit
error, a never-open port with a live process times out, and the socket
events of a failing attempt still end in a close. -/
theorem c8_readiness_probe_witness :
    (∃ k, (fun _ : Nat => (0 : Int)) k = 0) ∧
    (rpcWait (fun _ => (1 : Int)) (fun i => decide (i < 1))).2 = ProbeOutcome.exitedEarly ∧
    (rpcWait (fun _ => (1 : Int)) (fun _ => true)).2 = ProbeOutcome.rpcTimeout ∧
    (isPortOpen 7).2 = [REv.sockCreate, REv.sockConnect, REv.sockClose] := by
  refine ⟨?_, ?_, ?_, ?_⟩
  · exact c8_readiness_probe.1 (fun _ => 0) (fun _ => true) (by decide)
  · exact c8_readiness_probe.2.1 (fun _ => 1) (fun i => decide (i < 1)) 1 (by omega)
      (fun i _ => by norm_num) (fun i hi => by simp [hi]) (by decide)
  · exact (c8_readiness_probe.2.2.1 (fun _ => 1) (fun _ => true)
      (fun i => by norm_num) (fun i => rfl)).1
  · exact (c8_readiness_probe.2.2.2 7).1

/-- Claim C1: whenever the simulation subprocess was launched (`simProc` is
not None at the start of the finally block), every terminating execution of
run() — normal completion, test failure, a timeout, or an exception raised
anywhere from launch through the test phase — performs the teardown step:
SIGINT to the process group, a wait of up to one second, and a forced kill
when the wait timed out. -/
theorem c1_teardown_always (env : RunEnv)
    (hlaunch : (runBody env).2.1 = true) (hterm : (runModel env).2 ≠ RunOutcome.hung) :
    REv.killpg ∈ (runModel env).1 ∧ REv.waitSim ∈ (runModel env).1 ∧
      (env.simWaitTimeout = true → REv.killSim ∈ (runModel env).1) := by
  simp only [runModel] at hterm ⊢
  rcases hb : runBody env with ⟨evs, launched, res⟩
  rw [hb] at hlaunch hterm
  have hl2 : launched = true := hlaunch
  subst hl2
  cases res with
  | hung => simp at hterm
  | raised e =>
    cases hl : logsInput env <;>
      exact ⟨by simp [teardown], by simp [teardown], fun hsw => by simp [teardown, hsw]⟩
  | finished tp =>
    cases hl : logsInput env <;>
      exact ⟨by simp [teardown], by simp [teardown], fun hsw => by simp [teardown, hsw]⟩

/-- Witness for C1 at a concrete input: in the all-success world the
simulation is launched, run() returns, and the SIGINT and wait events are in
its trace. -/
theorem c1_teardown_always_witness :
    REv.killpg ∈ (runModel baseEnv).1 ∧ REv.waitSim ∈ (runModel baseEnv).1 := by
  have h := c1_teardown_always baseEnv (by decide) (by decide)
  exact ⟨h.1, h.2.1⟩

/-- Counterexample to claim C9: in server-only mode, a run in which every
phase succeeded and nothing was written to either stderr log still returns
exit code 1, not the claimed 0, because no test process was run and
`testProc is None` makes `passed` False. -/
theorem c9_server_only_counterexample :
    (runModel env9).2 = RunOutcome.ok 1 ∧ RunOutcome.ok 1 ≠ RunOutcome.ok 0 := by
  exact ⟨by decide, by decide⟩

/-- Claim C9 as amended: a server-only run never passes — whenever run()
returns at all in server-only mode, it returns exit code 1, stderr content
or not, because the test-process slot is None and the verdict is then
unconditionally False. -/
theorem c9_server_only_amended (env : RunEnv) (r : Int)
    (hso : env.server_only = true) (h : (runModel env).2 = RunOutcome.ok r) : r = 1 := by
  rw [runModel_snd] at h
  cases hres : (runBody env).2.2 with
  | hung => rw [hres] at h; simp at h
  | raised e => rw [hres] at h; cases hl : logsInput env <;> rw [hl] at h <;> simp at h
  | finished tp =>
    rw [hres] at h
    cases hl : logsInput env with
    | error u => rw [hl] at h; simp at h
    | ok pr =>
      rw [hl] at h
      have htp := runBody_finished_tp env tp hres
      rw [hso] at htp
      simp at htp
      subst htp
      simp [verdict] at h
      omega

/-- Witness for the amended C9 at a concrete input. -/
theorem c9_server_only_amended_witness : (1 : Int) = 1 ∧ env9.server_only = true := by
  exact ⟨c9_server_only_amended env9 1 rfl (by decide), rfl⟩

/-- Claim C2: the DPI-library guard `"" == "" or not os.path.exists("")` of
__init__ is true for every filesystem, so the constructor always raises, and
every invocation of __main__ that gets past the usage check (argc at least
2) ends in that uncaught exception with no compile or run event ever
performed. -/
theorem c2_init_always_raises :
    (∀ pe : String → Bool, initRaises pe = true) ∧
    (∀ (argc : Nat) (pe : String → Bool) (ce : CompileEnv) (re : RunEnv), 2 ≤ argc →
       mainModelT argc pe ce re = ([], MainRes.initException dpiErrMsg)) := by
  constructor
  · intro pe; simp [initRaises]
  · intro argc pe ce re h
    have h1 : ¬(argc ≤ 1) := by omega
    simp [mainModelT, h1, initRaises]

/-- Witness for C2 at concrete inputs: with two argv entries and a
filesystem on which every path exists, the constructor still raises. -/
theorem c2_init_always_raises_witness :
    initRaises (fun _ => true) = true ∧
    mainModelT 2 (fun _ => true) ce2 baseEnv = ([], MainRes.initException dpiErrMsg) := by
  exact ⟨c2_init_always_raises.1 (fun _ => true),
    c2_init_always_raises.2 2 (fun _ => true) ce2 baseEnv (by omega)⟩

/-- Claim C3: when the compile step exits non-zero, the dispatch code of
__main__ (lines 361-364) returns that exit code at once: run() is never
called — no simulation launch and no test-run event occurs, the trace being
exactly that of compile() — and the captured compiler output has been
printed. -/
theorem c3_compile_failure_short_circuit (ce : CompileEnv) (re : RunEnv) (h : ce.rc ≠ 0) :
    (mainDispatch ce re).2 = MainRes.code ce.rc ∧
    (mainDispatch ce re).1 = (compileModel ce).1 ∧
    REv.popen ∉ (mainDispatch ce re).1 ∧
    REv.runTest ∉ (mainDispatch ce re).1 ∧
    REv.printCompileOut (compileOutput ce) ∈ (mainDispatch ce re).1 := by
  simp [mainDispatch, compileModel, h]

/-- Witness for C3 at a concrete input: a compile step failing with exit
code 2. -/
theorem c3_compile_failure_short_circuit_witness :
    (mainDispatch ce2 baseEnv).2 = MainRes.code ce2.rc ∧
    REv.popen ∉ (mainDispatch ce2 baseEnv).1 := by
  have h := c3_compile_failure_short_circuit ce2 baseEnv (by norm_num [ce2])
  exact ⟨h.1, h.2.2.1⟩

/-- Counterexample to claim C4: a compile failure with compiler exit code 2
makes __main__ return 2 — a process exit code that is neither 0 nor 1, so
the claim that every failure yields exactly 1 is false. -/
theorem c4_exit_code_counterexample :
    (mainDispatch ce2 baseEnv).2 = MainRes.code 2 ∧ (2 : Int) ≠ 0 ∧ (2 : Int) ≠ 1 := by
  exact ⟨by decide, by decide, by decide⟩

/-- Claim C4 as amended: run() itself returns only 0 (pass) or 1 (failure),
and a compile failure propagates the compiler's own nonzero exit code — not
necessarily 1 — so every exit code __main__ returns is the compiler's code
or 0 or 1. -/
theorem c4_exit_codes_amended :
    (∀ (ce : CompileEnv) (re : RunEnv), ce.rc ≠ 0 →
       (mainDispatch ce re).2 = MainRes.code ce.rc) ∧
    (∀ (env : RunEnv) (r : Int), (runModel env).2 = RunOutcome.ok r → r = 0 ∨ r = 1) ∧
    (∀ (ce : CompileEnv) (re : RunEnv) (r : Int),
       (mainDispatch ce re).2 = MainRes.code r → r = ce.rc ∨ r = 0 ∨ r = 1) := by
  refine ⟨?_, runModel_ok_01, ?_⟩
  · intro ce re h
    simp [mainDispatch, compileModel, h]
  · intro ce re r h
    by_cases hc : ce.rc = 0
    · simp only [mainDispatch, compileModel, hc] at h
      simp at h
      cases hro : (runModel re).2 with
      | ok v =>
        rw [hro] at h
        simp at h
        subst h
        exact Or.inr (runModel_ok_01 re v hro)
      | raised e => rw [hro] at h; simp at h
      | hung => rw [hro] at h; simp at h
    · simp [mainDispatch, compileModel, hc] at h
      exact Or.inl h.symm

/-- Witness for the amended C4 at concrete inputs. -/
theorem c4_exit_codes_amended_witness :
    (mainDispatch ce2 baseEnv).2 = MainRes.code ce2.rc ∧ ((0 : Int) = 0 ∨ (0 : Int) = 1) := by
  exact ⟨c4_exit_codes_amended.1 ce2 baseEnv (by norm_num [ce2]),
    c4_exit_codes_amended.2.1 baseEnv 0 (by decide)⟩

/-- Claim C10: the generated inline-mode script consists of the
connection-variable preamble (config variables, path setup, tmpdir and
host:port) followed by every directive line extracted from the source file's
`PY:` comments, verbatim and in file order; in particular the two-directive
example file produces the two lines in order, and in a world where that
script exits 0 with nothing on either stderr log the invocation passes with
exit code 0. -/
theorem c10_inline_script :
    extractRuns ["// PY: x = 1", "// PY: print(x)"] = ["x = 1", "print(x)"] ∧
    (∀ (srcdir srcfile schema tmpdir thisdir : String) (port : Nat) (runs : List String),
       writeScriptText srcdir srcfile schema tmpdir thisdir port runs =
         writeScriptText srcdir srcfile schema tmpdir thisdir port [] ++
           String.join (runs.map (fun x => x ++ "\n"))) ∧
    writeScriptText "sd" "sf" "sc" "td" "th" 4711 ["x = 1", "print(x)"] =
      writeScriptText "sd" "sf" "sc" "td" "th" 4711 [] ++ "x = 1\nprint(x)\n" ∧
    (runModel baseEnv).1.count REv.writeScriptF = 1 ∧
    (runModel baseEnv).2 = RunOutcome.ok 0 := by
  have hgen : ∀ (srcdir srcfile schema tmpdir thisdir : String) (port : Nat)
      (runs : List String),
      writeScriptText srcdir srcfile schema tmpdir thisdir port runs =
        writeScriptText srcdir srcfile schema tmpdir thisdir port [] ++
          String.join (runs.map (fun x => x ++ "\n")) := by
    intro srcdir srcfile schema tmpdir thisdir port runs
    unfold writeScriptText
    rw [show String.join (([] : List String).map (fun x => x ++ "\n")) = "" from rfl,
      str_append_empty]
  refine ⟨by decide, hgen, ?_, by decide, by decide⟩
  rw [hgen]
  have : String.join (["x = 1", "print(x)"].map (fun x => x ++ "\n")) = "x = 1\nprint(x)\n" := by
    decide
  rw [this]

end Cosim
